import Mathlib

/-!
# Infoblox REST client: record operations

A shallow embedding of `infobloxclient/client.go` and `infobloxclient/records.go`.

The HTTP library and the Go standard library are outside the repository.  They
enter the model only through what the client code observes of them:

* a response is the record of its accessors (`StatusCode()`, `Body()`,
  `String()`, `Result()`);
* sending a request is a function from the request to either a transport error
  or a response, and every send is appended to the list of requests issued;
* `strings.ToLower` is an argument of the operations that call it.

Go strings are Lean strings, `fmt.Sprintf` with `%s` verbs is concatenation, a
nilable pointer or `error` is an `Option`.
-/

set_option linter.dupNamespace false

namespace infobloxclient

/-! ## Go values -/

/-- Go `error` value, identified by the text its `Error()` method returns. -/
structure GoError where
  Error : String
  deriving DecidableEq, Repr

/-- `fmt.Errorf` once the format string has been expanded to `msg`. -/
def Errorf (msg : String) : GoError := ⟨msg⟩

/-- `strings.HasPrefix s p`: the characters of `p` open `s`. -/
def HasPrefix (s p : String) : Bool := p.data.isPrefixOf s.data

/-- Result of a call: it either returns a value to its caller or ends the
process through `log.Fatal`, which logs the error and exits with status 1. -/
inductive Outcome (α : Type) where
  | returned (value : α)
  | fatal (err : GoError)
  deriving DecidableEq, Repr

/-! ## Record data (records.go, lines 9-39) -/

/-- `Ipv4addr` represents IPv4 settings for a single IP address. -/
structure Ipv4addr where
  Ref : String := ""
  ConfigureForDhcp : Bool := false
  Host : String := ""
  Ipv4addr : String := ""
  deriving DecidableEq, Repr

/-- `InfobloxRecord` represents generic data for CNAME, TXT, and Host records. -/
structure InfobloxRecord where
  Ref : String := ""
  Canonical : String := ""
  Comment : String := ""
  ConfigureForDNS : Bool := false
  Name : String := ""
  View : String := ""
  Text : String := ""
  Ipv4addrs : List Ipv4addr := []
  Ipv4addr : String := ""
  deriving DecidableEq, Repr

/-- `InfobloxRecordResults` represents one or more record results. -/
structure InfobloxRecordResults where
  Result : List InfobloxRecord := []
  deriving DecidableEq, Repr

/-- `InfobloxRecordResult` represents a single record result. -/
structure InfobloxRecordResult where
  Result : InfobloxRecord := {}
  deriving DecidableEq, Repr

/-! ## HTTP exchange -/

/-- HTTP verb of a request. -/
inductive Method where
  | GET | POST | PUT | DELETE
  deriving DecidableEq, Repr

/-- One request as the client code builds it with `c.R()`: the verb method
called last, the path handed to it, the value given to `SetBody` and the
parameters given to `SetQueryParam` on the request. -/
structure Request where
  Method : Method
  URL : String
  Body : Option InfobloxRecord := none
  QueryParam : List (String × String) := []
  deriving DecidableEq, Repr

/-- What the client code reads from a response: `StatusCode()`, the raw bytes
`Body()`, the value `Result()` points to (of the type given to `SetResult`),
and the body text returned by the accessor `String()`. -/
structure Response (ρ : Type) where
  StatusCode : Int
  Body : List UInt8
  Result : ρ
  String : String

/-- The configured client together with the appliance behind it: a request
yields a transport error or a response. -/
abbrev Transport (ρ : Type) := Request → Except GoError (Response ρ)

/-- Requests issued so far, oldest first. -/
abbrev Wire := List Request

/-- Sending one request: the verb methods `Post`, `Get`, `Put`, `Delete`. -/
def Execute {ρ : Type} (net : Transport ρ) (req : Request) (wire : Wire) :
    Except GoError (Response ρ) × Wire :=
  (net req, wire ++ [req])

/-! ## Client construction (client.go, lines 16-31) -/

/-- Settings `NewInfobloxClient` applies to the fresh REST client: each field
holds the argument handed to the setter of that name (`SetDebug`,
`SetTLSClientConfig`, `SetHostURL`, `SetBasicAuth`, `SetQueryParam`). -/
structure InfobloxClient where
  Debug : Bool
  InsecureSkipVerify : Bool
  HostURL : String
  BasicAuth : String × String
  QueryParam : List (String × String)
  deriving DecidableEq, Repr

/-- Lines 23-25: the version after the `if !strings.HasPrefix(version, "v")`. -/
def apiVersion (version : String) : String :=
  if !HasPrefix version "v" then "v" ++ version else version

/-- `NewInfobloxClient` instantiates REST client for Infoblox. -/
def NewInfobloxClient (url version username password : String)
    (insecure debug : Bool) : InfobloxClient :=
  let version := if !HasPrefix version "v" then "v" ++ version else version
  let infobloxURL := url ++ "/wapi/" ++ version ++ "/"
  { Debug := debug
    InsecureSkipVerify := insecure
    HostURL := infobloxURL
    BasicAuth := (username, password)
    QueryParam := [("_return_as_object", "1")] }

/-! ## Record operations (records.go, lines 41-134) -/

/-- `CreateRecord` creates an Infoblox record of a specified type. -/
def CreateRecord (ToLower : String → String) (net : Transport InfobloxRecordResult)
    (recordType : String) (data : InfobloxRecord) (wire : Wire) :
    Outcome (Option InfobloxRecordResult × Option GoError) × Wire :=
  let rtype := ToLower recordType
  let sent := Execute net
    { Method := .POST, URL := "/record:" ++ rtype, Body := some data,
      QueryParam := [("_return_fields+", "comment")] } wire
  match sent.1 with
  | .error err => (.returned (none, some err), sent.2)
  | .ok response =>
    if response.StatusCode = 401 then
      (.returned (some {}, some (Errorf
        ("Unauthorized request. Infoblox API returned: " ++ response.String))), sent.2)
    else if response.StatusCode = 201 then
      (.returned (some response.Result, none), sent.2)
    else
      (.returned (none, some (Errorf response.String)), sent.2)

/-- Lines 67-70 of `GetRecord`: the search key for a lower-cased record type. -/
def searchKey (rtype : String) : String :=
  if rtype = "cname" then "canonical" else "name"

/-- `GetRecord` retrieves a Infoblox record of a specified type. -/
def GetRecord (ToLower : String → String) (net : Transport InfobloxRecordResults)
    (recordType : String) (name : String) (wire : Wire) :
    Outcome (Option InfobloxRecordResults × Option GoError) × Wire :=
  let rtype := ToLower recordType
  let search := if rtype = "cname" then "canonical" else "name"
  let sent := Execute net
    { Method := .GET, URL := "/record:" ++ rtype ++ "?" ++ search ++ "=" ++ name,
      QueryParam := [("_return_fields+", "comment")] } wire
  match sent.1 with
  | .error err => (.fatal err, sent.2)
  | .ok response =>
    if response.StatusCode = 401 then
      (.returned (some {}, some (Errorf
        ("Unauthorized request. Infoblox API returned: " ++ response.String))), sent.2)
    else if response.StatusCode = 200 then
      if response.Body.length > 2 then
        (.returned (some response.Result, none), sent.2)
      else
        (.returned (none, none), sent.2)
    else
      (.returned (none, some (Errorf response.String)), sent.2)

/-- `UpdateRecord` updates the record behind a reference. -/
def UpdateRecord (net : Transport InfobloxRecordResult)
    (ref : String) (data : InfobloxRecord) (wire : Wire) :
    Outcome (Option InfobloxRecordResult × Option GoError) × Wire :=
  let sent := Execute net
    { Method := .PUT, URL := "/" ++ ref, Body := some data,
      QueryParam := [("_return_fields+", "comment")] } wire
  match sent.1 with
  | .error err => (.returned (none, some err), sent.2)
  | .ok response =>
    if response.StatusCode = 401 then
      (.returned (some {}, some (Errorf
        ("Unauthorized request. Infoblox API returned: " ++ response.String))), sent.2)
    else if response.StatusCode = 200 then
      if response.Body.length > 2 then
        (.returned (some response.Result, none), sent.2)
      else
        (.returned (none, none), sent.2)
    else
      (.returned (none, some (Errorf response.String)), sent.2)

/-- `DeleteRecord` deletes a Infoblox record by its ref. -/
def DeleteRecord (net : Transport Unit) (ref : String) (wire : Wire) :
    Outcome (Option GoError) × Wire :=
  let sent := Execute net { Method := .DELETE, URL := "/" ++ ref } wire
  match sent.1 with
  | .error err => (.fatal err, sent.2)
  | .ok response =>
    if response.StatusCode ≠ 200 then
      (.returned (some (Errorf response.String)), sent.2)
    else
      (.returned none, sent.2)

/-! ## JSON form of a record (struct tags of records.go, lines 21-39) -/

/-- JSON values occurring in the record schema. -/
inductive JSON where
  | str (s : String)
  | bool (b : Bool)
  | arr (items : List JSON)
  | obj (members : List (String × JSON))

/-- Member for a string field tagged `key`; with `omitempty` an empty string
yields no member. -/
def stringMember (key : String) (omitempty : Bool) (v : String) : List (String × JSON) :=
  if omitempty ∧ v = "" then [] else [(key, .str v)]

/-- Member for a bool field tagged `key`; with `omitempty` the value `false`
yields no member. -/
def boolMember (key : String) (omitempty : Bool) (v : Bool) : List (String × JSON) :=
  if omitempty ∧ v = false then [] else [(key, .bool v)]

/-- Member for a slice field tagged `key`; with `omitempty` a slice of length 0
yields no member. -/
def sliceMember (key : String) (omitempty : Bool) (v : List JSON) : List (String × JSON) :=
  if omitempty ∧ v.length = 0 then [] else [(key, .arr v)]

/-- Members of the JSON object for an `Ipv4addr`, in field order. -/
def membersOfIpv4addr (a : Ipv4addr) : List (String × JSON) :=
  stringMember "_ref" true a.Ref
    ++ boolMember "configure_for_dhcp" true a.ConfigureForDhcp
    ++ stringMember "host" true a.Host
    ++ stringMember "ipv4addr" false a.Ipv4addr

/-- Members of the JSON object for an `InfobloxRecord`, in field order. -/
def membersOfRecord (r : InfobloxRecord) : List (String × JSON) :=
  stringMember "_ref" true r.Ref
    ++ stringMember "canonical" true r.Canonical
    ++ stringMember "comment" true r.Comment
    ++ boolMember "configure_for_dns" true r.ConfigureForDNS
    ++ stringMember "name" false r.Name
    ++ stringMember "view" true r.View
    ++ stringMember "text" true r.Text
    ++ sliceMember "ipv4addrs" true (r.Ipv4addrs.map fun a => JSON.obj (membersOfIpv4addr a))
    ++ stringMember "ipv4addr" true r.Ipv4addr

/-- The JSON object sent for a record given to `SetBody`. -/
def Marshal (r : InfobloxRecord) : JSON := .obj (membersOfRecord r)

/-! ## Concrete instances of the library parameters -/

/-- The transport that answers every request with `response`. -/
def respond {ρ : Type} (response : Response ρ) : Transport ρ :=
  fun _ => .ok response

/-- What `strings.ToLower` does to a string of ASCII characters. -/
def lowerASCII (s : String) : String := String.mk (s.data.map Char.toLower)

/-! ## Status-code dispatch -/

/-- C1: on a 401 response with body text `b`, `CreateRecord`, `GetRecord` and
`UpdateRecord` each return the error "Unauthorized request. Infoblox API
returned: " followed by `b`, together with a non-nil result whose fields all
hold their zero value. -/
theorem unauthorized_on_401 (ToLower : String → String) (body : List UInt8) (b : String)
    (one : InfobloxRecordResult) (many : InfobloxRecordResults)
    (recordType name ref : String) (data : InfobloxRecord) (wire : Wire) :
    (CreateRecord ToLower (respond ⟨401, body, one, b⟩) recordType data wire).1
        = .returned (some ⟨⟨"", "", "", false, "", "", "", [], ""⟩⟩,
            some ⟨"Unauthorized request. Infoblox API returned: " ++ b⟩)
    ∧ (GetRecord ToLower (respond ⟨401, body, many, b⟩) recordType name wire).1
        = .returned (some ⟨[]⟩,
            some ⟨"Unauthorized request. Infoblox API returned: " ++ b⟩)
    ∧ (UpdateRecord (respond ⟨401, body, one, b⟩) ref data wire).1
        = .returned (some ⟨⟨"", "", "", false, "", "", "", [], ""⟩⟩,
            some ⟨"Unauthorized request. Infoblox API returned: " ++ b⟩) :=
  ⟨rfl, rfl, rfl⟩

/-- C2, as stated, fails: a 200 response with the three-byte body "[1]" makes
`CreateRecord` return a nil result with the body text as error, and a 201
response with the same body does the same to `GetRecord` and `UpdateRecord`. -/
theorem success_not_every_2xx :
    (200 : Int) ≤ 200 ∧ (200 : Int) ≤ 299 ∧ (200 : Int) ≤ 201 ∧ (201 : Int) ≤ 299
    ∧ 2 < [(0x5b : UInt8), 0x31, 0x5d].length
    ∧ (CreateRecord lowerASCII
          (respond ⟨200, [0x5b, 0x31, 0x5d], {}, "[1]"⟩)
          "cname" { Name := "a.example" } []).1
        = .returned (none, some ⟨"[1]"⟩)
    ∧ (GetRecord lowerASCII
          (respond ⟨201, [0x5b, 0x31, 0x5d], {}, "[1]"⟩)
          "cname" "a.example" []).1
        = .returned (none, some ⟨"[1]"⟩)
    ∧ (UpdateRecord
          (respond ⟨201, [0x5b, 0x31, 0x5d], {}, "[1]"⟩)
          "record:cname/abc" { Name := "a.example" } []).1
        = .returned (none, some ⟨"[1]"⟩) := by
  refine ⟨by decide, by decide, by decide, by decide, by decide, rfl, rfl, rfl⟩

/-- C2, amended: on a response whose body is longer than 2 bytes,
`CreateRecord` returns the result decoded from the response and a nil error
when the status code is 201, and `GetRecord` and `UpdateRecord` do so when the
status code is 200. -/
theorem success_on_201_or_200 (ToLower : String → String) (body : List UInt8)
    (b : String) (one : InfobloxRecordResult) (many : InfobloxRecordResults)
    (recordType name ref : String) (data : InfobloxRecord) (wire : Wire)
    (hlen : 2 < body.length) :
    (CreateRecord ToLower (respond ⟨201, body, one, b⟩) recordType data wire).1
        = .returned (some one, none)
    ∧ (GetRecord ToLower (respond ⟨200, body, many, b⟩) recordType name wire).1
        = .returned (some many, none)
    ∧ (UpdateRecord (respond ⟨200, body, one, b⟩) ref data wire).1
        = .returned (some one, none) := by
  refine ⟨rfl, ?_, ?_⟩
  · simp [GetRecord, Execute, respond, hlen]
  · simp [UpdateRecord, Execute, respond, hlen]

/-- Instance of `success_on_201_or_200`: every response carries the three-byte
body "[ ]". -/
theorem success_on_201_or_200_witness :
    2 < [(0x5b : UInt8), 0x20, 0x5d].length
    ∧ (CreateRecord lowerASCII (respond ⟨201, [0x5b, 0x20, 0x5d], ⟨{ Name := "a" }⟩, "[ ]"⟩)
          "TXT" {} []).1
        = .returned (some ⟨{ Name := "a" }⟩, none)
    ∧ (GetRecord lowerASCII (respond ⟨200, [0x5b, 0x20, 0x5d], ⟨[{ Name := "a" }]⟩, "[ ]"⟩)
          "TXT" "a" []).1
        = .returned (some ⟨[{ Name := "a" }]⟩, none)
    ∧ (UpdateRecord (respond ⟨200, [0x5b, 0x20, 0x5d], ⟨{ Name := "a" }⟩, "[ ]"⟩) "r" {} []).1
        = .returned (some ⟨{ Name := "a" }⟩, none) :=
  ⟨by decide,
    success_on_201_or_200 lowerASCII [0x5b, 0x20, 0x5d] "[ ]" ⟨{ Name := "a" }⟩
      ⟨[{ Name := "a" }]⟩ "TXT" "a" "r" {} [] (by decide)⟩

/-- C3: on a response whose status code is neither 401 nor in 200..299, with
body text `b`, each of the four operations returns an error whose message is
exactly `b`; the three operations that have a result return it nil. -/
theorem other_status_is_body_error (ToLower : String → String) (status : Int)
    (body : List UInt8) (b : String)
    (one : InfobloxRecordResult) (many : InfobloxRecordResults)
    (recordType name ref : String) (data : InfobloxRecord) (wire : Wire)
    (h401 : status ≠ 401) (h2xx : ¬ (200 ≤ status ∧ status ≤ 299)) :
    (CreateRecord ToLower (respond ⟨status, body, one, b⟩) recordType data wire).1
        = .returned (none, some ⟨b⟩)
    ∧ (GetRecord ToLower (respond ⟨status, body, many, b⟩) recordType name wire).1
        = .returned (none, some ⟨b⟩)
    ∧ (UpdateRecord (respond ⟨status, body, one, b⟩) ref data wire).1
        = .returned (none, some ⟨b⟩)
    ∧ (DeleteRecord (respond ⟨status, body, (), b⟩) ref wire).1
        = .returned (some ⟨b⟩) := by
  have h200 : status ≠ 200 := fun h => h2xx (by omega)
  have h201 : status ≠ 201 := fun h => h2xx (by omega)
  refine ⟨?_, ?_, ?_, ?_⟩
  · simp [CreateRecord, Execute, respond, h401, h201, Errorf]
  · simp [GetRecord, Execute, respond, h401, h200, Errorf]
  · simp [UpdateRecord, Execute, respond, h401, h200, Errorf]
  · simp [DeleteRecord, Execute, respond, h200, Errorf]

/-- Instance of `other_status_is_body_error` at status 500. -/
theorem other_status_is_body_error_witness :
    (500 : Int) ≠ 401 ∧ ¬ ((200 : Int) ≤ 500 ∧ (500 : Int) ≤ 299)
    ∧ (CreateRecord lowerASCII (respond ⟨500, [0x62, 0x6f, 0x6f, 0x6d], {}, "boom"⟩) "host" {} []).1
        = .returned (none, some ⟨"boom"⟩)
    ∧ (GetRecord lowerASCII (respond ⟨500, [0x62, 0x6f, 0x6f, 0x6d], {}, "boom"⟩) "host" "a" []).1
        = .returned (none, some ⟨"boom"⟩)
    ∧ (UpdateRecord (respond ⟨500, [0x62, 0x6f, 0x6f, 0x6d], {}, "boom"⟩) "r" {} []).1
        = .returned (none, some ⟨"boom"⟩)
    ∧ (DeleteRecord (respond ⟨500, [0x62, 0x6f, 0x6f, 0x6d], (), "boom"⟩) "r" []).1
        = .returned (some ⟨"boom"⟩) :=
  ⟨by decide, by decide,
    other_status_is_body_error lowerASCII 500 [0x62, 0x6f, 0x6f, 0x6d] "boom" {} {} "host" "a" "r" {} []
      (by decide) (by decide)⟩

/-- C4: on a 200 response `GetRecord` and `UpdateRecord` return "no result"
(nil result, nil error) exactly when the body is at most 2 bytes long, and
return the non-nil decoded result with a nil error when it is longer. -/
theorem no_result_iff_short_body (ToLower : String → String) (body : List UInt8)
    (b : String) (one : InfobloxRecordResult) (many : InfobloxRecordResults)
    (recordType name ref : String) (data : InfobloxRecord) (wire : Wire) :
    ((GetRecord ToLower (respond ⟨200, body, many, b⟩) recordType name wire).1
        = .returned (none, none) ↔ body.length ≤ 2)
    ∧ ((UpdateRecord (respond ⟨200, body, one, b⟩) ref data wire).1
        = .returned (none, none) ↔ body.length ≤ 2)
    ∧ (2 < body.length →
        (GetRecord ToLower (respond ⟨200, body, many, b⟩) recordType name wire).1
          = .returned (some many, none))
    ∧ (2 < body.length →
        (UpdateRecord (respond ⟨200, body, one, b⟩) ref data wire).1
          = .returned (some one, none)) := by
  by_cases hlen : 2 < body.length
  · have hle : ¬ body.length ≤ 2 := by omega
    simp [GetRecord, UpdateRecord, Execute, respond, hlen, hle]
  · have hle : body.length ≤ 2 := by omega
    simp [GetRecord, UpdateRecord, Execute, respond, hlen, hle]

/-- Instance of `no_result_iff_short_body`: the two-byte body of an empty
result list gives "no result", a three-byte body gives the decoded result. -/
theorem no_result_iff_short_body_witness :
    (GetRecord lowerASCII (respond ⟨200, [0x5b, 0x5d], ⟨[]⟩, "[]"⟩) "host" "a" []).1
        = .returned (none, none)
    ∧ (UpdateRecord (respond ⟨200, [0x5b, 0x20, 0x5d], ⟨{ Name := "a" }⟩, "[ ]"⟩) "r" {} []).1
        = .returned (some ⟨{ Name := "a" }⟩, none) :=
  ⟨(no_result_iff_short_body lowerASCII [0x5b, 0x5d] "[]" {} ⟨[]⟩ "host" "a" "r" {} []).1.2
      (by decide),
    (no_result_iff_short_body lowerASCII [0x5b, 0x20, 0x5d] "[ ]" ⟨{ Name := "a" }⟩ {}
      "host" "a" "r" {} []).2.2.2 (by decide)⟩

/-- C5, the code at a 401 response: `DeleteRecord` returns the body text `b`
alone as error message, which is not the unauthorized message the other three
operations build from the same response. -/
theorem DeleteRecord_401_plain_body (body : List UInt8) (b ref : String) (wire : Wire) :
    (DeleteRecord (respond ⟨401, body, (), b⟩) ref wire).1 = .returned (some ⟨b⟩)
    ∧ (⟨b⟩ : GoError) ≠ ⟨"Unauthorized request. Infoblox API returned: " ++ b⟩ := by
  refine ⟨rfl, fun h => ?_⟩
  have hlen := congrArg (fun e => e.Error.length) h
  simp [String.length_append] at hlen
  have : ("Unauthorized request. Infoblox API returned: ").length = 45 := by decide
  omega

/-- C9: `DeleteRecord` returns a nil error exactly when the status code is 200;
for every other status code, 204 among them, it returns an error whose message
is exactly the body text. -/
theorem DeleteRecord_nil_iff_200 (status : Int) (body : List UInt8) (b ref : String)
    (wire : Wire) :
    ((DeleteRecord (respond ⟨status, body, (), b⟩) ref wire).1 = .returned none
        ↔ status = 200)
    ∧ (status ≠ 200 →
        (DeleteRecord (respond ⟨status, body, (), b⟩) ref wire).1 = .returned (some ⟨b⟩))
    ∧ (DeleteRecord (respond ⟨204, body, (), b⟩) ref wire).1 = .returned (some ⟨b⟩) := by
  refine ⟨?_, ?_, rfl⟩
  · by_cases h : status = 200 <;> simp [DeleteRecord, Execute, respond, h]
  · intro h
    simp [DeleteRecord, Execute, respond, h, Errorf]

/-- Instance of `DeleteRecord_nil_iff_200`: status 200 gives a nil error, status
404 the body text. -/
theorem DeleteRecord_nil_iff_200_witness :
    (DeleteRecord (respond ⟨200, [], (), ""⟩) "r" []).1 = .returned none
    ∧ (DeleteRecord (respond ⟨404, [0x67, 0x6f, 0x6e, 0x65], (), "gone"⟩) "r" []).1
        = .returned (some ⟨"gone"⟩) :=
  ⟨(DeleteRecord_nil_iff_200 200 [] "" "r" []).1.2 rfl,
    (DeleteRecord_nil_iff_200 404 [0x67, 0x6f, 0x6e, 0x65] "gone" "r" []).2.1 (by decide)⟩

/-! ## Requests issued -/

/-- C7: whatever the transport answers (an error or any response), each
operation appends exactly one request to those issued: `CreateRecord` a POST to
"/record:" ++ lower-cased record type with the record as body, `GetRecord` a
GET to "/record:" ++ lower-cased record type ++ "?" ++ search key ++ "=" ++
name, `UpdateRecord` a PUT to "/" ++ ref with the record as body, and
`DeleteRecord` a DELETE to "/" ++ ref. -/
theorem one_request_per_call (ToLower : String → String)
    (netOne : Transport InfobloxRecordResult) (netMany : Transport InfobloxRecordResults)
    (netNone : Transport Unit)
    (recordType name ref : String) (data : InfobloxRecord) (wire : Wire) :
    (CreateRecord ToLower netOne recordType data wire).2
        = wire ++ [⟨.POST, "/record:" ++ ToLower recordType, some data,
            [("_return_fields+", "comment")]⟩]
    ∧ (GetRecord ToLower netMany recordType name wire).2
        = wire ++ [⟨.GET, "/record:" ++ ToLower recordType ++ "?"
              ++ searchKey (ToLower recordType) ++ "=" ++ name, none,
            [("_return_fields+", "comment")]⟩]
    ∧ (UpdateRecord netOne ref data wire).2
        = wire ++ [⟨.PUT, "/" ++ ref, some data, [("_return_fields+", "comment")]⟩]
    ∧ (DeleteRecord netNone ref wire).2
        = wire ++ [⟨.DELETE, "/" ++ ref, none, []⟩] := by
  refine ⟨?_, ?_, ?_, ?_⟩
  · unfold CreateRecord
    simp only [Execute]
    split
    · rfl
    · split_ifs <;> rfl
  · unfold GetRecord
    simp only [Execute, searchKey]
    split
    · rfl
    · split_ifs <;> rfl
  · unfold UpdateRecord
    simp only [Execute]
    split
    · rfl
    · split_ifs <;> rfl
  · unfold DeleteRecord
    simp only [Execute]
    split
    · rfl
    · split_ifs <;> rfl

/-- C10: the search key of `GetRecord` depends on the lower-cased record type
only: it is "canonical" exactly when that is "cname" and "name" otherwise; the
request path carries the name unchanged after the "="; and two calls whose
record types have the same lower-case form and whose names are equal are the
same call, request and outcome. -/
theorem GetRecord_search_key (ToLower : String → String)
    (net : Transport InfobloxRecordResults) (recordType name : String) (wire : Wire) :
    (GetRecord ToLower net recordType name wire).2
        = wire ++ [⟨.GET, "/record:" ++ ToLower recordType ++ "?"
              ++ searchKey (ToLower recordType) ++ "=" ++ name, none,
            [("_return_fields+", "comment")]⟩]
    ∧ (searchKey (ToLower recordType) = "canonical" ↔ ToLower recordType = "cname")
    ∧ (ToLower recordType ≠ "cname" → searchKey (ToLower recordType) = "name")
    ∧ (∀ other : String, ToLower other = ToLower recordType →
        GetRecord ToLower net other name wire = GetRecord ToLower net recordType name wire) := by
  refine ⟨?_, ?_, ?_, ?_⟩
  · unfold GetRecord
    simp only [Execute, searchKey]
    split
    · rfl
    · split_ifs <;> rfl
  · unfold searchKey
    split_ifs with h
    · simp [h]
    · simp only [h, iff_false]
      decide
  · intro h
    simp [searchKey, h]
  · intro other h
    simp only [GetRecord, h]

/-- Instance of `GetRecord_search_key`: "CNAME" and "cname" give the same call,
and "TXT" searches by "name". -/
theorem GetRecord_search_key_witness :
    lowerASCII "CNAME" = lowerASCII "cname"
    ∧ GetRecord lowerASCII (respond ⟨200, [], {}, ""⟩) "CNAME" "a.example" []
        = GetRecord lowerASCII (respond ⟨200, [], {}, ""⟩) "cname" "a.example" []
    ∧ lowerASCII "TXT" ≠ "cname"
    ∧ searchKey (lowerASCII "TXT") = "name" :=
  ⟨by decide,
    (GetRecord_search_key lowerASCII (respond ⟨200, [], {}, ""⟩) "cname" "a.example" []).2.2.2
      "CNAME" (by decide),
    by decide,
    (GetRecord_search_key lowerASCII (respond ⟨200, [], {}, ""⟩) "TXT" "a.example" []).2.2.1
      (by decide)⟩

/-! ## Versioned base URL -/

theorem HasPrefix_v_append (s : String) : HasPrefix ("v" ++ s) "v" = true := by
  simp [HasPrefix, String.data_append]

/-- C6: the base URL is url ++ "/wapi/" ++ v ++ "/", where v is the version
unchanged when it starts with "v" and "v" ++ version otherwise; v always starts
with "v", normalising twice equals normalising once, and the versions "2.5" and
"v2.5" give the same base URL. -/
theorem NewInfobloxClient_base_url (url version username password : String)
    (insecure debug : Bool) :
    (NewInfobloxClient url version username password insecure debug).HostURL
        = url ++ "/wapi/" ++ apiVersion version ++ "/"
    ∧ (HasPrefix version "v" = true → apiVersion version = version)
    ∧ (HasPrefix version "v" = false → apiVersion version = "v" ++ version)
    ∧ HasPrefix (apiVersion version) "v" = true
    ∧ apiVersion (apiVersion version) = apiVersion version
    ∧ (NewInfobloxClient url "2.5" username password insecure debug).HostURL
        = (NewInfobloxClient url "v2.5" username password insecure debug).HostURL := by
  have hstart : HasPrefix (apiVersion version) "v" = true := by
    unfold apiVersion
    by_cases h : HasPrefix version "v" = true
    · simp [h]
    · simp [h, HasPrefix_v_append]
  refine ⟨rfl, ?_, ?_, hstart, ?_, ?_⟩
  · intro h
    simp [apiVersion, h]
  · intro h
    simp [apiVersion, h]
  · have h2 : apiVersion (apiVersion version)
        = if !HasPrefix (apiVersion version) "v" then "v" ++ apiVersion version
          else apiVersion version := rfl
    rw [h2, hstart]
    rfl
  · have h1 : HasPrefix "2.5" "v" = false := by decide
    have h2 : HasPrefix "v2.5" "v" = true := by decide
    simp only [NewInfobloxClient, h1, h2]
    rfl

/-- Instance of `NewInfobloxClient_base_url`: version "2.5" becomes "v2.5", and
"v2.5" stays. -/
theorem NewInfobloxClient_base_url_witness :
    HasPrefix "2.5" "v" = false ∧ apiVersion "2.5" = "v" ++ "2.5"
    ∧ HasPrefix "v2.5" "v" = true ∧ apiVersion "v2.5" = "v2.5"
    ∧ (NewInfobloxClient "https://ib.example" "2.5" "u" "p" false false).HostURL
        = "https://ib.example" ++ "/wapi/" ++ apiVersion "2.5" ++ "/" :=
  ⟨by decide,
    (NewInfobloxClient_base_url "https://ib.example" "2.5" "u" "p" false false).2.2.1
      (by decide),
    by decide,
    (NewInfobloxClient_base_url "https://ib.example" "v2.5" "u" "p" false false).2.1
      (by decide),
    (NewInfobloxClient_base_url "https://ib.example" "2.5" "u" "p" false false).1⟩

/-! ## Optional fields in the JSON form -/

theorem lookup_stringMember (k key : String) (o : Bool) (v : String) :
    (stringMember key o v).lookup k
      = if k = key ∧ ¬ (o = true ∧ v = "") then some (.str v) else none := by
  unfold stringMember
  by_cases h : o = true ∧ v = ""
  · rw [if_pos h, if_neg (fun hc => hc.2 h)]
    rfl
  · by_cases hk : k = key
    · rw [if_neg h, if_pos ⟨hk, h⟩, hk]
      exact List.lookup_cons_self
    · have hb : (k == key) = false := by simpa using hk
      rw [if_neg h, if_neg (fun hc => hk hc.1)]
      simp [List.lookup, hb]

theorem lookup_boolMember (k key : String) (o : Bool) (v : Bool) :
    (boolMember key o v).lookup k
      = if k = key ∧ ¬ (o = true ∧ v = false) then some (.bool v) else none := by
  unfold boolMember
  by_cases h : o = true ∧ v = false
  · rw [if_pos h, if_neg (fun hc => hc.2 h)]
    rfl
  · by_cases hk : k = key
    · rw [if_neg h, if_pos ⟨hk, h⟩, hk]
      exact List.lookup_cons_self
    · have hb : (k == key) = false := by simpa using hk
      rw [if_neg h, if_neg (fun hc => hk hc.1)]
      simp [List.lookup, hb]

theorem lookup_sliceMember (k key : String) (o : Bool) (v : List JSON) :
    (sliceMember key o v).lookup k
      = if k = key ∧ ¬ (o = true ∧ v.length = 0) then some (.arr v) else none := by
  unfold sliceMember
  by_cases h : o = true ∧ v.length = 0
  · rw [if_pos h, if_neg (fun hc => hc.2 h)]
    rfl
  · by_cases hk : k = key
    · rw [if_neg h, if_pos ⟨hk, h⟩, hk]
      exact List.lookup_cons_self
    · have hb : (k == key) = false := by simpa using hk
      rw [if_neg h, if_neg (fun hc => hk hc.1)]
      simp [List.lookup, hb]

theorem keys_stringMember (key : String) (o : Bool) (v : String) :
    ((stringMember key o v).map Prod.fst).Sublist [key] := by
  unfold stringMember
  split_ifs <;> simp

theorem keys_boolMember (key : String) (o : Bool) (v : Bool) :
    ((boolMember key o v).map Prod.fst).Sublist [key] := by
  unfold boolMember
  split_ifs <;> simp

theorem keys_sliceMember (key : String) (o : Bool) (v : List JSON) :
    ((sliceMember key o v).map Prod.fst).Sublist [key] := by
  unfold sliceMember
  split_ifs <;> simp

/-- C8, as stated, fails for the name field: the record whose fields are all
empty is sent as an object with the one member "name": "", and a record with
only a reference set still carries "name": "". -/
theorem empty_name_is_sent :
    membersOfRecord { Name := "" } = [("name", .str "")]
    ∧ (membersOfRecord { Name := "" }).lookup "name" = some (.str "")
    ∧ membersOfRecord { Ref := "record:cname/abc" }
        = [("_ref", .str "record:cname/abc"), ("name", .str "")] :=
  ⟨rfl, rfl, rfl⟩

/-- C8, amended: eight of the nine fields are optional in the JSON object: the
reference, canonical name, comment, DNS-enable flag, view, text, address list
and single address each contribute no member when empty (empty string, false,
empty list) and exactly their key (_ref, canonical, comment, configure_for_dns,
view, text, ipv4addrs, ipv4addr) with their value otherwise.  The name always
contributes the member "name" with its value, empty or not.  The object has no
other keys, and none twice. -/
theorem record_json_members (r : InfobloxRecord) :
    (membersOfRecord r).lookup "_ref"
        = (if r.Ref = "" then none else some (.str r.Ref))
    ∧ (membersOfRecord r).lookup "canonical"
        = (if r.Canonical = "" then none else some (.str r.Canonical))
    ∧ (membersOfRecord r).lookup "comment"
        = (if r.Comment = "" then none else some (.str r.Comment))
    ∧ (membersOfRecord r).lookup "configure_for_dns"
        = (if r.ConfigureForDNS = false then none else some (.bool r.ConfigureForDNS))
    ∧ (membersOfRecord r).lookup "name" = some (.str r.Name)
    ∧ (membersOfRecord r).lookup "view"
        = (if r.View = "" then none else some (.str r.View))
    ∧ (membersOfRecord r).lookup "text"
        = (if r.Text = "" then none else some (.str r.Text))
    ∧ (membersOfRecord r).lookup "ipv4addrs"
        = (if r.Ipv4addrs = [] then none
           else some (.arr (r.Ipv4addrs.map fun a => JSON.obj (membersOfIpv4addr a))))
    ∧ (membersOfRecord r).lookup "ipv4addr"
        = (if r.Ipv4addr = "" then none else some (.str r.Ipv4addr))
    ∧ ((membersOfRecord r).map Prod.fst).Sublist
        ["_ref", "canonical", "comment", "configure_for_dns", "name", "view", "text",
          "ipv4addrs", "ipv4addr"] := by
  have hkeys : ((membersOfRecord r).map Prod.fst).Sublist
      ["_ref", "canonical", "comment", "configure_for_dns", "name", "view", "text",
        "ipv4addrs", "ipv4addr"] := by
    simp only [membersOfRecord, List.map_append]
    exact ((((((((keys_stringMember _ _ _).append (keys_stringMember _ _ _)).append
      (keys_stringMember _ _ _)).append (keys_boolMember _ _ _)).append
      (keys_stringMember _ _ _)).append (keys_stringMember _ _ _)).append
      (keys_stringMember _ _ _)).append (keys_sliceMember _ _ _)).append
      (keys_stringMember _ _ _)
  refine ⟨?_, ?_, ?_, ?_, ?_, ?_, ?_, ?_, ?_, hkeys⟩
  all_goals
    cases hdns : r.ConfigureForDNS <;>
      simp [membersOfRecord, List.lookup_append, lookup_stringMember, lookup_boolMember,
        lookup_sliceMember, hdns]

end infobloxclient
